import Mathlib

/-!
Verification of the engine lifecycle and transport supervisor of
prisma-client-py (service engine variant).

The Python module `src/prisma/engine/_service.py` is shallowly embedded:
filesystem paths become lists of components, the filesystem becomes a
boolean existence predicate, the network and the supervised process become
oracle functions supplied by a `ConnectWorld`, and the stateful engine
object becomes explicit state passing over `EngineState`.
-/

namespace PrismaService

/-- A filesystem path, as a list of components (`Path` in the source). -/
abbrev FsPath := List String

/-- `path / component` (pathlib `/` operator). -/
def FsPath.child (p : FsPath) (s : String) : FsPath := p ++ [s]

/-- `path.parent` (pathlib). -/
def FsPath.parent (p : FsPath) : FsPath := p.dropLast

/-- Render a path the way `str(path)` would, joining components with `/`. -/
def FsPath.render (p : FsPath) : String := String.intercalate "/" p

/-- The filesystem, abstracted to an existence test (`Path.exists()`). -/
structure FS where
  pathExists : FsPath → Bool

/-- Ambient inputs of `_find_bridge_directory`: the `PRISMA_BRIDGE_DIR`
environment variable (parsed to a path when set and non-empty), the location
of the `_service.py` module file (`Path(__file__)`), the current working
directory (`Path.cwd()`) and the home directory (`Path.home()`). -/
structure LocatorEnv where
  envBridgeDir : Option FsPath
  filePath : FsPath
  cwd : FsPath
  home : FsPath

/-- A candidate directory is valid when it exists and contains
`package.json` (the manifest check done for every candidate). -/
def hasBridgeManifest (fs : FS) (p : FsPath) : Bool :=
  fs.pathExists p && fs.pathExists (p.child "package.json")

/-- Candidate 2: `Path(__file__).parent.parent / 'bridge'`. -/
def bundledDir (env : LocatorEnv) : FsPath :=
  (env.filePath.parent.parent).child "bridge"

/-- Candidate 3: `Path(__file__).parent.parent.parent.parent / 'prisma-bridge'`. -/
def adjacentDir (env : LocatorEnv) : FsPath :=
  (env.filePath.parent.parent.parent.parent).child "prisma-bridge"

/-- Candidate 4: `Path.cwd() / 'prisma-bridge'`. -/
def cwdBridgeDir (env : LocatorEnv) : FsPath :=
  env.cwd.child "prisma-bridge"

/-- Candidate 5: `Path.home() / '.prisma' / 'bridge'`. -/
def homeBridgeDir (env : LocatorEnv) : FsPath :=
  ((env.home.child ".prisma").child "bridge")

/-- Embedding of `_find_bridge_directory`: probe the environment override,
then the bundled, adjacent, working-directory and home locations, returning
the first directory containing a `package.json`, else `none`. An override
that is set but invalid only logs a warning and falls through. -/
def find_bridge_directory (fs : FS) (env : LocatorEnv) : Option FsPath :=
  let afterEnv : Option FsPath :=
    if hasBridgeManifest fs (bundledDir env) then some (bundledDir env)
    else if hasBridgeManifest fs (adjacentDir env) then some (adjacentDir env)
    else if hasBridgeManifest fs (cwdBridgeDir env) then some (cwdBridgeDir env)
    else if hasBridgeManifest fs (homeBridgeDir env) then some (homeBridgeDir env)
    else none
  match env.envBridgeDir with
  | some p => if hasBridgeManifest fs p then some p else afterEnv
  | none => afterEnv

/-- Spec-side definition (§4.1 of the design): the prioritized candidate
list, in the order the locator is specified to search. -/
def locatorCandidates (env : LocatorEnv) : List FsPath :=
  (match env.envBridgeDir with
   | some p => [p]
   | none => []) ++
  [bundledDir env, adjacentDir env, cwdBridgeDir env, homeBridgeDir env]

/-- Outcome of one request to the `/health/status` endpoint, as the connect
loop discriminates it: a body with `status == 'ok'`, a body with an `Errors`
field (retryable), any other body (falls through to `break`), or a raised
transport exception. -/
inductive StatusResp
  | ok
  | errors
  | other
  | exc (e : String)
deriving DecidableEq

/-- Result of the connect health-check loop, recording how many status
requests were issued and, on failure, the last exception captured in
`last_exc` (attached as the cause of the raised error). -/
inductive ConnectOutcome
  | connected (requests : Nat)
  | connError (lastExc : Option String) (requests : Nat)
deriving DecidableEq

/-- Python `int()` applied to a rational: truncation toward zero. -/
def pyInt (q : ℚ) : Int := if 0 ≤ q then ⌊q⌋ else ⌈q⌉

/-- `int(timeout.total_seconds() / 0.1)`: the iteration count of the
connect health-check loop, fixed before the loop starts. -/
def healthCheckIterations (timeoutSeconds : ℚ) : Nat :=
  (pyInt (timeoutSeconds / (1 / 10))).toNat

/-- The body of the connect retry loop, with the endpoint's responses given
by `oracle` (indexed by request number), `n` iterations remaining, `k`
requests already made and `lastExc` the last captured exception. -/
def connectLoop (oracle : Nat → StatusResp) : Nat → Nat → Option String → ConnectOutcome
  | 0, k, lastExc => .connError lastExc k
  | n + 1, k, lastExc =>
    match oracle k with
    | .ok => .connected (k + 1)
    | .errors => connectLoop oracle n (k + 1) lastExc
    | .exc e => connectLoop oracle n (k + 1) (some e)
    | .other => .connError lastExc (k + 1)

/-- The connect handshake's status polling, as run by `connect`:
`for _ in range(int(timeout.total_seconds() / 0.1)): ...`. -/
def connectStatusResult (oracle : Nat → StatusResp) (timeoutSeconds : ℚ) : ConnectOutcome :=
  connectLoop oracle (healthCheckIterations timeoutSeconds) 0 none

/-- Wall time, in seconds, consumed by the connect retry loop when request
number `k` takes `dur k` seconds: a successful or breaking iteration costs
its request, a retried one costs its request plus the `time.sleep(0.1)`. -/
def connectElapsed (oracle : Nat → StatusResp) (dur : Nat → ℚ) : Nat → Nat → ℚ
  | 0, _ => 0
  | n + 1, k =>
    match oracle k with
    | .ok => dur k
    | .errors => dur k + 1 / 10 + connectElapsed oracle dur n (k + 1)
    | .exc _ => dur k + 1 / 10 + connectElapsed oracle dur n (k + 1)
    | .other => dur k

/-- `BRIDGE_STARTUP_TIMEOUT = 30` seconds, in milliseconds (time inside the
readiness loop is modelled in integral milliseconds). -/
def BRIDGE_STARTUP_TIMEOUT_MS : Nat := 30000

/-- What one health poll of `_wait_for_bridge_ready` observes: either a 200
response whose JSON body has `status == 'ok'`, or anything else (non-200,
unrecognized body, or a raised/timed-out request, which are all swallowed). -/
inductive PollResult
  | ok
  | notOk
deriving DecidableEq

/-- Oracles for the readiness loop, indexed by poll number: the health
response, the wall time in milliseconds consumed by the request attempt
(capped at the transport's 2-second deadline by `attemptCost`), and the
process-liveness check `poll()` — `some (code, stderr)` when the spawned
process has exited. -/
structure BridgeProbe where
  poll : Nat → PollResult
  reqDur : Nat → Nat
  procExit : Nat → Option (Int × String)

/-- Milliseconds consumed by request attempt `k`; `urllib.request.urlopen`
is called with `timeout=2`, bounding each attempt by 2000 ms. -/
def attemptCost (bp : BridgeProbe) (k : Nat) : Nat := min (bp.reqDur k) 2000

/-- Result of `_wait_for_bridge_ready`: the bridge answered `ok` at poll
`step` (return `True`), the process was seen to have exited with the given
code and captured stderr (return `False` after logging them), or the
startup deadline elapsed (fall out of the `while`, return `False`). -/
inductive ReadyOutcome
  | ready (step : Nat)
  | procExited (code : Int) (stderr : String)
  | timedOut
deriving DecidableEq

/-- Embedding of the `while time.monotonic() - start < timeout` loop of
`_wait_for_bridge_ready`: at poll `k` with `elapsed` ms on the clock, check
the deadline, issue the health request, on failure check whether the
process died, then `time.sleep(0.5)`. Returns the outcome and the final
clock reading. -/
def waitGo (bp : BridgeProbe) (timeoutMs : Nat) (k : Nat) (elapsed : Nat) :
    ReadyOutcome × Nat :=
  if elapsed < timeoutMs then
    match bp.poll k with
    | .ok => (.ready k, elapsed + attemptCost bp k)
    | .notOk =>
      match bp.procExit k with
      | some (c, s) => (.procExited c s, elapsed + attemptCost bp k)
      | none => waitGo bp timeoutMs (k + 1) (elapsed + attemptCost bp k + 500)
  else (.timedOut, elapsed)
termination_by timeoutMs - elapsed
decreasing_by omega

/-- `_wait_for_bridge_ready(timeout=BRIDGE_STARTUP_TIMEOUT)`. -/
def wait_for_bridge_ready (bp : BridgeProbe) (timeoutMs : Nat := BRIDGE_STARTUP_TIMEOUT_MS) :
    ReadyOutcome × Nat :=
  waitGo bp timeoutMs 0 0

/-- The mutable fields of a service engine instance that the supervisor
reads or writes: the auto-start policy resolved at construction, the
immutable service URL, and the owned `_bridge_process` and `_bridge_dir`. -/
structure EngineState where
  autoStart : Bool
  serviceUrl : String
  bridgeProcess : Option Nat
  bridgeDir : Option FsPath
deriving DecidableEq

/-- A raised `EngineConnectionError`: its message, and its `__cause__` when
raised as `raise ... from last_exc`. -/
structure EngineError where
  message : String
  cause : Option String
deriving DecidableEq

/-- Outcome of the `npm install` subprocess: it completed with a return
code and captured stderr, or hit the 120-second timeout. -/
inductive InstallOutcome
  | completed (returncode : Int) (stderr : String)
  | timedOut
deriving DecidableEq

/-- The external world as `connect` observes it: the socket probe of
`_is_bridge_running`, the filesystem and locator environment, the Node.js
and npm preflight results, whether `node_modules` exists, the `npm install`
outcome, the pid `Popen` would return, the readiness-probe oracles, and
the `/health/status` responses seen by the connect retry loop. -/
structure ConnectWorld where
  reachable : Bool
  fs : FS
  env : LocatorEnv
  nodeOk : Bool
  nodeMsg : String
  npmOk : Bool
  npmMsg : String
  nodeModulesExists : Bool
  npmInstall : InstallOutcome
  spawnPid : Nat
  probe : BridgeProbe
  statusOracle : Nat → StatusResp

/-- The literal message of the locator-failure `EngineConnectionError`. -/
def bridgeNotFoundMsg : String :=
  "Prisma Bridge service not found.\n\n" ++
  "The bridge service is required for Prisma Client Python v0.13.0+.\n\n" ++
  "Options:\n" ++
  "1. Set PRISMA_BRIDGE_DIR to the bridge directory path\n" ++
  "2. Clone the repo and run from the project root\n" ++
  "3. Copy prisma-bridge/ to your project directory\n" ++
  "4. Set PRISMA_BRIDGE_AUTO_START=false and run bridge manually:\n" ++
  "   cd prisma-bridge && npm install && npm start\n\n" ++
  "See: https://github.com/RobertCraigie/prisma-client-py#quick-start"

/-- Message raised when the Node.js preflight fails. -/
def nodeRequiredMsg (nodeMsg : String) : String :=
  "Node.js is required to run the Prisma Bridge service.\n\n" ++ nodeMsg ++
  "\n\nAlternatively, run the bridge in Docker:\n" ++
  "  cd prisma-bridge && docker-compose up -d\n" ++
  "  export PRISMA_BRIDGE_AUTO_START=false"

/-- Message raised when the npm preflight fails. -/
def npmRequiredMsg (npmMsg : String) : String :=
  "npm is required to run the Prisma Bridge service.\n\n" ++ npmMsg

/-- Message raised when `npm install` exits non-zero. -/
def installFailedMsg (stderr : String) : String :=
  "Failed to install bridge dependencies:\n" ++ stderr

/-- Message raised when `npm install` times out. -/
def installTimedOutMsg (dir : FsPath) : String :=
  "npm install timed out. Please run manually:\n  cd " ++ dir.render ++ " && npm install"

/-- Message raised when the spawned bridge does not become ready within the
startup deadline. -/
def startupTimeoutMsg (dir : FsPath) : String :=
  "Bridge service failed to start within 30s.\n\n" ++
  "Check the bridge logs or try running manually:\n  cd " ++ dir.render ++
  " && npm run dev\n\nCommon issues:\n- DATABASE_URL not set\n" ++
  "- Port 4466 already in use\n- Missing prisma generate"

/-- Message of the error raised when the connect retry loop is exhausted. -/
def couldNotConnectMsg (serviceUrl : String) : String :=
  "Could not connect to Prisma Bridge Service at " ++ serviceUrl

/-- Embedding of `_start_bridge_if_needed`: return the raised error (if
any) together with the instance state as the method leaves it. Early
returns when auto-start is disabled or the socket probe finds a live
bridge; otherwise locate the bridge, run the Node.js and npm preflights,
install dependencies when `node_modules` is absent, spawn the process and
wait for readiness, stopping the process again on readiness failure. -/
def start_bridge_if_needed (w : ConnectWorld) (st : EngineState) :
    Option EngineError × EngineState :=
  if !st.autoStart then (none, st)
  else if w.reachable then (none, st)
  else
    match find_bridge_directory w.fs w.env with
    | none => (some ⟨bridgeNotFoundMsg, none⟩, { st with bridgeDir := none })
    | some dir =>
      let st1 := { st with bridgeDir := some dir }
      if !w.nodeOk then (some ⟨nodeRequiredMsg w.nodeMsg, none⟩, st1)
      else if !w.npmOk then (some ⟨npmRequiredMsg w.npmMsg, none⟩, st1)
      else
        let installErr : Option EngineError :=
          if !w.nodeModulesExists then
            match w.npmInstall with
            | .completed rc stderr =>
              if rc ≠ 0 then some ⟨installFailedMsg stderr, none⟩ else none
            | .timedOut => some ⟨installTimedOutMsg dir, none⟩
          else none
        match installErr with
        | some e => (some e, st1)
        | none =>
          let st2 := { st1 with bridgeProcess := some w.spawnPid }
          match (wait_for_bridge_ready w.probe).1 with
          | .ready _ => (none, st2)
          | _ =>
            (some ⟨startupTimeoutMsg dir, none⟩, { st2 with bridgeProcess := none })

/-- Embedding of `SyncServiceEngine.connect` (the async variant's loop is
identical): run `_start_bridge_if_needed`, then poll `/health/status` for
`int(timeout.total_seconds() / 0.1)` iterations, raising
`EngineConnectionError(...) from last_exc` when the loop is exhausted or a
response is neither `ok` nor retryable. -/
def engineConnect (w : ConnectWorld) (timeoutSeconds : ℚ) (st : EngineState) :
    Option EngineError × EngineState :=
  match start_bridge_if_needed w st with
  | (some e, st1) => (some e, st1)
  | (none, st1) =>
    match connectStatusResult w.statusOracle timeoutSeconds with
    | .connected _ => (none, st1)
    | .connError lastExc _ =>
      (some ⟨couldNotConnectMsg st.serviceUrl, lastExc⟩, st1)

/-- The process-control calls `_stop_bridge` issues on the owned handle. -/
inductive StopAction
  | terminate (pid : Nat)
  | kill (pid : Nat)
deriving DecidableEq

/-- The grace period of `self._bridge_process.wait(timeout=5)`, seconds. -/
def STOP_GRACE_SECONDS : ℚ := 5

/-- Embedding of `_stop_bridge`: a no-op when no process is owned;
otherwise `terminate()`, wait up to the 5-second grace period
(`procExitTime` is when the process exits after terminate, `none` if it
never does), escalate to `kill()` on `TimeoutExpired`, and clear
`_bridge_process`. Returns the new state and the calls issued. -/
def stop_bridge (procExitTime : Option ℚ) (st : EngineState) :
    EngineState × List StopAction :=
  match st.bridgeProcess with
  | none => (st, [])
  | some pid =>
    let actions :=
      match procExitTime with
      | some t =>
        if t ≤ STOP_GRACE_SECONDS then [StopAction.terminate pid]
        else [StopAction.terminate pid, StopAction.kill pid]
      | none => [StopAction.terminate pid, StopAction.kill pid]
    ({ st with bridgeProcess := none }, actions)

/-- `SyncServiceEngine.stop` / `AsyncServiceEngine.stop` (also registered
via `atexit` and invoked from `disconnect`): just `self._stop_bridge()`. -/
def engine_stop (procExitTime : Option ℚ) (st : EngineState) :
    EngineState × List StopAction :=
  stop_bridge procExitTime st

/-- A decoded JSON response body, as far as the metrics path inspects it. -/
inductive JVal
  | str (s : String)
  | num (n : Int)
  | obj (fields : List (String × JVal))
  | arr (elems : List JVal)

/-- The metrics format enumeration. -/
inductive MetricsFormat
  | json
  | prometheus
deriving DecidableEq

/-- The empty structured-metrics fallback:
`{'counters': [], 'gauges': [], 'histograms': []}`. -/
def emptyJsonMetrics : JVal :=
  .obj [("counters", .arr []), ("gauges", .arr []), ("histograms", .arr [])]

/-- Embedding of `SyncServiceEngine.metrics` (the async body is
identical): `transport` maps a request path to its decoded body or a
raised transport error. For `prometheus`, GET `/metrics` and return the
body when it is a string, else `''`; for `json`, GET `/metrics/json` and
return the body; any exception degrades to the empty result of the
requested format. -/
def metricsRequest (transport : String → Except String JVal) (format : MetricsFormat) :
    JVal :=
  match format with
  | .prometheus =>
    match transport "/metrics" with
    | .ok (.str s) => .str s
    | .ok _ => .str ""
    | .error _ => .str ""
  | .json =>
    match transport "/metrics/json" with
    | .ok d => d
    | .error _ => emptyJsonMetrics

/-- Helper for stating counterexamples: `containsSub hay needle` decides
whether `needle` occurs contiguously in `hay`. -/
def containsSub (hay needle : List Char) : Bool :=
  match hay with
  | [] => needle.isEmpty
  | _ :: rest => needle.isPrefixOf hay || containsSub rest needle

/-- Whether one string occurs inside another (used to state that an error
message does or does not mention a path). -/
def mentions (msg sub : String) : Bool :=
  containsSub msg.toList sub.toList

/-! Concrete fixtures used by witnesses and counterexamples. -/

/-- A filesystem with no entries at all. -/
def fsEmpty : FS := ⟨fun _ => false⟩

/-- A locator environment giving four distinct searched candidates (no
`PRISMA_BRIDGE_DIR` override set). -/
def envFour : LocatorEnv where
  envBridgeDir := none
  filePath := ["opt", "acme", "src", "prisma", "engine", "_service.py"]
  cwd := ["workdir"]
  home := ["homedir"]

/-- The same environment with an invalid `PRISMA_BRIDGE_DIR` override. -/
def envOverride : LocatorEnv := { envFour with envBridgeDir := some ["baddir"] }

/-- A filesystem containing only the working-directory bridge candidate
`workdir/prisma-bridge` and its manifest. -/
def fsCwdOnly : FS :=
  ⟨fun p => p == ["workdir", "prisma-bridge"] ||
            p == ["workdir", "prisma-bridge", "package.json"]⟩

/-- A bridge probe whose health endpoint never answers `ok` and whose
process never exits. -/
def probeNever : BridgeProbe := ⟨fun _ => .notOk, fun _ => 0, fun _ => none⟩

/-- A world in which no bridge is reachable and the locator finds
nothing. -/
def wNotFound : ConnectWorld where
  reachable := false
  fs := fsEmpty
  env := envFour
  nodeOk := true
  nodeMsg := "v20.0.0"
  npmOk := true
  npmMsg := "10.0.0"
  nodeModulesExists := true
  npmInstall := .completed 0 ""
  spawnPid := 1234
  probe := probeNever
  statusOracle := fun _ => .exc "refused"

/-- A world in which an externally managed bridge is already reachable and
healthy; Node.js and npm are deliberately absent to witness that the
preflight checks are never consulted on the early-return path. -/
def wLive : ConnectWorld where
  reachable := true
  fs := fsEmpty
  env := envFour
  nodeOk := false
  nodeMsg := "Node.js not found. Please install Node.js 18+ from https://nodejs.org"
  npmOk := false
  npmMsg := "npm not found. Please install Node.js 18+ from https://nodejs.org"
  nodeModulesExists := false
  npmInstall := .timedOut
  spawnPid := 0
  probe := probeNever
  statusOracle := fun _ => .ok

/-- A freshly constructed engine with auto-start enabled. -/
def stAuto : EngineState where
  autoStart := true
  serviceUrl := "http://localhost:4466"
  bridgeProcess := none
  bridgeDir := none

/-- A freshly constructed engine with auto-start disabled. -/
def stOff : EngineState := { stAuto with autoStart := false }

/-- An engine currently owning bridge process 7. -/
def stProc7 : EngineState := { stAuto with bridgeProcess := some 7 }

/-- A transport whose every request raises (sidecar lacks the path). -/
def transportDown : String → Except String JVal := fun _ => .error "Not Found"

/-- A status endpoint that always raises a connection-refused error. -/
def oracleRefuse : Nat → StatusResp := fun _ => .exc "ECONNREFUSED"

/-- Status requests that each take one second of wall time. -/
def durOneSec : Nat → ℚ := fun _ => 1

/-! Helper lemmas shared by the claim theorems. -/

/-- The locator equals a first-match search over the prioritized candidate
list of the specification. -/
theorem locator_eq_find (fs : FS) (env : LocatorEnv) :
    find_bridge_directory fs env = (locatorCandidates env).find? (hasBridgeManifest fs) := by
  unfold find_bridge_directory locatorCandidates
  rcases env.envBridgeDir with _ | p
  · cases h1 : hasBridgeManifest fs (bundledDir env) <;>
    cases h2 : hasBridgeManifest fs (adjacentDir env) <;>
    cases h3 : hasBridgeManifest fs (cwdBridgeDir env) <;>
    cases h4 : hasBridgeManifest fs (homeBridgeDir env) <;>
    simp [List.find?, h1, h2, h3, h4]
  · cases h0 : hasBridgeManifest fs p <;>
    cases h1 : hasBridgeManifest fs (bundledDir env) <;>
    cases h2 : hasBridgeManifest fs (adjacentDir env) <;>
    cases h3 : hasBridgeManifest fs (cwdBridgeDir env) <;>
    cases h4 : hasBridgeManifest fs (homeBridgeDir env) <;>
    simp [List.find?, h0, h1, h2, h3, h4]

/-- Any directory the locator returns passed the manifest check. -/
theorem find_bridge_directory_valid (fs : FS) (env : LocatorEnv) (q : FsPath)
    (h : find_bridge_directory fs env = some q) : hasBridgeManifest fs q = true := by
  rw [locator_eq_find] at h
  exact List.find?_some h

/-- The connect loop is skipped entirely for timeouts under one polling
interval: `int(timeout / 0.1)` is zero. -/
theorem healthCheckIterations_eq_zero (T : ℚ) (h : T < 1 / 10) :
    healthCheckIterations T = 0 := by
  unfold healthCheckIterations pyInt
  have h10 : T / (1 / 10) = T * 10 := by ring
  rw [h10]
  split
  · next h0 =>
    have hfl : ⌊T * 10⌋ = 0 := by
      rw [Int.floor_eq_zero_iff]
      exact Set.mem_Ico.mpr ⟨h0, by linarith⟩
    simp [hfl]
  · next h0 =>
    have hc : ⌈T * 10⌉ ≤ 0 := by
      rw [Int.ceil_le]
      push_cast
      linarith
    omega

/-- `int(timeout / 0.1)` evaluates to 10 for a 1-second timeout. -/
theorem healthCheckIterations_one : healthCheckIterations 1 = 10 := by
  have h : (1 : ℚ) / (1 / 10) = 10 := by norm_num
  unfold healthCheckIterations pyInt
  rw [h, if_pos (by norm_num : (0 : ℚ) ≤ 10)]
  have hfl : ⌊(10 : ℚ)⌋ = 10 := by
    exact_mod_cast Int.floor_intCast (α := ℚ) 10
  rw [hfl]
  rfl

/-- `_start_bridge_if_needed` never changes the auto-start policy or the
service URL of the instance. -/
theorem start_bridge_preserves_config (w : ConnectWorld) (st : EngineState) :
    ((start_bridge_if_needed w st).2).autoStart = st.autoStart ∧
    ((start_bridge_if_needed w st).2).serviceUrl = st.serviceUrl := by
  unfold start_bridge_if_needed
  repeat' split
  all_goals exact ⟨rfl, rfl⟩

/-- Whether and how `_start_bridge_if_needed` raises depends on the
instance state only through the auto-start flag; everything else it
consults comes from the outside world. -/
theorem start_bridge_error_only_autoStart (w : ConnectWorld) (st st' : EngineState)
    (h : st.autoStart = st'.autoStart) :
    (start_bridge_if_needed w st).1 = (start_bridge_if_needed w st').1 := by
  simp only [start_bridge_if_needed]
  rw [h]
  repeat' split
  all_goals rfl

/-- The readiness loop's final clock reading never exceeds the deadline by
more than one request attempt (2000 ms cap) plus one 500 ms sleep. -/
theorem waitGo_elapsed_le (bp : BridgeProbe) (T k e : Nat) :
    (waitGo bp T k e).2 ≤ max e (T + 2499) := by
  induction k, e using waitGo.induct bp T with
  | case1 k e hlt hok =>
    have hc : attemptCost bp k ≤ 2000 := min_le_right _ _
    rw [waitGo]
    simp only [if_pos hlt, hok]
    exact le_max_of_le_right (by omega)
  | case2 k e hlt hpoll c s hexit =>
    have hc : attemptCost bp k ≤ 2000 := min_le_right _ _
    rw [waitGo]
    simp only [if_pos hlt, hpoll, hexit]
    exact le_max_of_le_right (by omega)
  | case3 k e hlt hpoll hexit ih =>
    have hc : attemptCost bp k ≤ 2000 := min_le_right _ _
    rw [waitGo]
    simp only [if_pos hlt, hpoll, hexit]
    refine le_trans ih (max_le ?_ (le_max_right _ _))
    exact le_max_of_le_right (by omega)
  | case4 k e hge =>
    rw [waitGo]
    simp only [if_neg hge]
    exact le_max_left _ _

/-- The readiness loop reports success only after observing an `ok` health
response at that poll. -/
theorem waitGo_ready_poll (bp : BridgeProbe) (T j : Nat) :
    ∀ k e, (waitGo bp T k e).1 = .ready j → bp.poll j = .ok := by
  intro k e
  induction k, e using waitGo.induct bp T with
  | case1 k e hlt hok =>
    intro h
    rw [waitGo] at h
    simp only [if_pos hlt, hok] at h
    cases h
    exact hok
  | case2 k e hlt hpoll c s hexit =>
    intro h
    rw [waitGo] at h
    simp only [if_pos hlt, hpoll, hexit] at h
    cases h
  | case3 k e hlt hpoll hexit ih =>
    intro h
    rw [waitGo] at h
    simp only [if_pos hlt, hpoll, hexit] at h
    exact ih h
  | case4 k e hge =>
    intro h
    rw [waitGo] at h
    simp only [if_neg hge] at h
    cases h

/-- The readiness loop reports a dead process only when some poll saw no
`ok` response and the liveness check returned that exit code and captured
stderr. -/
theorem waitGo_procExited_char (bp : BridgeProbe) (T : Nat) (c : Int) (s : String) :
    ∀ k e, (waitGo bp T k e).1 = .procExited c s →
      ∃ j, bp.poll j = .notOk ∧ bp.procExit j = some (c, s) := by
  intro k e
  induction k, e using waitGo.induct bp T with
  | case1 k e hlt hok =>
    intro h
    rw [waitGo] at h
    simp only [if_pos hlt, hok] at h
    cases h
  | case2 k e hlt hpoll c' s' hexit =>
    intro h
    rw [waitGo] at h
    simp only [if_pos hlt, hpoll, hexit] at h
    cases h
    exact ⟨k, hpoll, hexit⟩
  | case3 k e hlt hpoll hexit ih =>
    intro h
    rw [waitGo] at h
    simp only [if_pos hlt, hpoll, hexit] at h
    exact ih h
  | case4 k e hge =>
    intro h
    rw [waitGo] at h
    simp only [if_neg hge] at h
    cases h

/-- When the health endpoint never answers `ok` and the process never
exits, the readiness loop always ends by deadline exhaustion. -/
theorem waitGo_never_ok_timedOut (bp : BridgeProbe) (T : Nat)
    (hok : ∀ j, bp.poll j ≠ .ok) (hexit : ∀ j, bp.procExit j = none) :
    ∀ k e, (waitGo bp T k e).1 = .timedOut := by
  intro k e
  induction k, e using waitGo.induct bp T with
  | case1 k e hlt hpoll => exact absurd hpoll (hok k)
  | case2 k e hlt hpoll c s hex => rw [hexit k] at hex; cases hex
  | case3 k e hlt hpoll hex ih =>
    rw [waitGo]
    simp only [if_pos hlt, hpoll, hex]
    exact ih
  | case4 k e hge =>
    rw [waitGo]
    simp only [if_neg hge]

/-- With instantaneous status requests, the connect retry loop's wall time
is bounded by one polling interval per iteration. -/
theorem connectElapsed_zero_dur_le (oracle : Nat → StatusResp) :
    ∀ n k, connectElapsed oracle (fun _ => 0) n k ≤ n * (1 / 10 : ℚ) := by
  intro n
  induction n with
  | zero => intro k; simp [connectElapsed]
  | succ m ih =>
    intro k
    have hm : (0 : ℚ) ≤ m * (1 / 10) := by positivity
    have hmm := ih (k + 1)
    cases h : oracle k <;>
      simp only [connectElapsed, h] <;> push_cast <;> linarith

/-- The fixed iteration count of the connect loop, scaled by the polling
interval, never exceeds the requested timeout. -/
theorem healthCheckIterations_le (T : ℚ) (h : 0 ≤ T) :
    (healthCheckIterations T : ℚ) * (1 / 10) ≤ T := by
  unfold healthCheckIterations pyInt
  have h10 : T / (1 / 10) = T * 10 := by ring
  rw [h10, if_pos (by linarith : (0 : ℚ) ≤ T * 10)]
  have h1 : (0 : ℤ) ≤ ⌊T * 10⌋ := Int.floor_nonneg.mpr (by linarith)
  have h2 : ((⌊T * 10⌋ : ℤ) : ℚ) ≤ T * 10 := Int.floor_le _
  have h3 : ((⌊T * 10⌋.toNat : ℕ) : ℚ) = ((⌊T * 10⌋ : ℤ) : ℚ) := by
    exact_mod_cast congrArg Int.cast (Int.toNat_of_nonneg h1)
  rw [h3]
  linarith

/-! Claim theorems. -/

/-- C4: the readiness-polling loop terminates with a final clock reading at
most the startup deadline plus one capped request attempt and one sleep;
it succeeds only on a 200/`ok` health response, reports a dead process only
with the observed exit code and captured stderr, and ends in a deadline
timeout whenever the endpoint never answers `ok` and the process never
exits. -/
theorem wait_ready_bounded_trichotomy (bp : BridgeProbe) (timeoutMs : Nat) :
    (wait_for_bridge_ready bp timeoutMs).2 ≤ timeoutMs + 2499 ∧
    (∀ j, (wait_for_bridge_ready bp timeoutMs).1 = .ready j → bp.poll j = .ok) ∧
    (∀ c s, (wait_for_bridge_ready bp timeoutMs).1 = .procExited c s →
      ∃ j, bp.poll j = .notOk ∧ bp.procExit j = some (c, s)) ∧
    ((∀ j, bp.poll j ≠ .ok) → (∀ j, bp.procExit j = none) →
      (wait_for_bridge_ready bp timeoutMs).1 = .timedOut) := by
  refine ⟨?_, ?_, ?_, ?_⟩
  · have hb := waitGo_elapsed_le bp timeoutMs 0 0
    simpa [wait_for_bridge_ready] using hb
  · intro j hj
    exact waitGo_ready_poll bp timeoutMs j 0 0 hj
  · intro c s hcs
    exact waitGo_procExited_char bp timeoutMs c s 0 0 hcs
  · intro h1 h2
    exact waitGo_never_ok_timedOut bp timeoutMs h1 h2 0 0

/-- C4 witness: against a probe that never reports `ok` and whose process
never exits, a 1000 ms readiness wait ends in a timeout within the bound. -/
theorem wait_ready_bounded_trichotomy_witness :
    (wait_for_bridge_ready probeNever 1000).1 = .timedOut ∧
    (wait_for_bridge_ready probeNever 1000).2 ≤ 1000 + 2499 := by
  refine ⟨?_, (wait_ready_bounded_trichotomy probeNever 1000).1⟩
  exact (wait_ready_bounded_trichotomy probeNever 1000).2.2.2
    (fun j => by simp [probeNever]) (fun j => rfl)

/-- C5: when auto-start is disabled or the socket probe already reaches a
live bridge, `_start_bridge_if_needed` returns immediately with the
instance state untouched — no process is spawned, the bridge directory is
not resolved, and no preflight outcome can surface, whatever the rest of
the world looks like. -/
theorem ensure_running_early_return (w : ConnectWorld) (st : EngineState)
    (h : st.autoStart = false ∨ w.reachable = true) :
    start_bridge_if_needed w st = (none, st) := by
  unfold start_bridge_if_needed
  rcases h with h | h
  · rw [h]
    rfl
  · cases hA : st.autoStart <;> simp [hA, h]

/-- C5 witness: with a reachable external bridge and Node.js and npm both
absent, the supervisor still returns at once without error or mutation. -/
theorem ensure_running_early_return_witness :
    start_bridge_if_needed wLive stAuto = (none, stAuto) :=
  ensure_running_early_return wLive stAuto (Or.inr rfl)

/-- C6: the locator is exactly a first-match scan of the five candidate
locations in specification order (override, bundled, adjacent, working
directory, home), a candidate qualifying only when it exists and carries
`package.json`; when no candidate qualifies it returns not-found. -/
theorem locator_priority_order (fs : FS) (env : LocatorEnv) :
    find_bridge_directory fs env = (locatorCandidates env).find? (hasBridgeManifest fs) ∧
    ((∀ p ∈ locatorCandidates env, hasBridgeManifest fs p = false) →
      find_bridge_directory fs env = none) := by
  refine ⟨locator_eq_find fs env, fun hall => ?_⟩
  rw [locator_eq_find, List.find?_eq_none]
  intro x hx
  simp [hall x hx]

/-- C6 witness: on an empty filesystem the locator agrees with the
first-match scan and returns not-found. -/
theorem locator_priority_order_witness :
    find_bridge_directory fsEmpty envFour =
      (locatorCandidates envFour).find? (hasBridgeManifest fsEmpty) ∧
    find_bridge_directory fsEmpty envFour = none :=
  ⟨(locator_priority_order fsEmpty envFour).1,
   (locator_priority_order fsEmpty envFour).2 (by decide)⟩

/-- C7: when the transport request raises, `metrics` returns the empty
string for the prometheus format and the empty counters/gauges/histograms
object for the json format; the error is never propagated. -/
theorem metrics_degrade_gracefully (transport : String → Except String JVal) :
    (∀ e, transport "/metrics" = .error e →
      metricsRequest transport .prometheus = .str "") ∧
    (∀ e, transport "/metrics/json" = .error e →
      metricsRequest transport .json = emptyJsonMetrics) := by
  constructor
  · intro e h
    simp [metricsRequest, h]
  · intro e h
    simp [metricsRequest, h]

/-- C7 witness: against a sidecar lacking the metrics paths entirely, both
formats degrade to their empty results. -/
theorem metrics_degrade_gracefully_witness :
    metricsRequest transportDown .prometheus = .str "" ∧
    metricsRequest transportDown .json = emptyJsonMetrics :=
  ⟨(metrics_degrade_gracefully transportDown).1 "Not Found" rfl,
   (metrics_degrade_gracefully transportDown).2 "Not Found" rfl⟩

/-- C8: `_stop_bridge` (and `stop`, which merely calls it) is idempotent —
a no-op on a never-started or already-stopped instance; on a live owned
process it always terminates gracefully, force-kills exactly when the
process does not exit within the 5-second grace period, and clears the
owned handle so a repeated call is again a no-op. -/
theorem stop_idempotent (b : Option ℚ) (st : EngineState) :
    (st.bridgeProcess = none → stop_bridge b st = (st, [])) ∧
    ((stop_bridge b st).1).bridgeProcess = none ∧
    (∀ b2, stop_bridge b2 (stop_bridge b st).1 = ((stop_bridge b st).1, [])) ∧
    (∀ pid, st.bridgeProcess = some pid →
      StopAction.terminate pid ∈ (stop_bridge b st).2 ∧
      (StopAction.kill pid ∈ (stop_bridge b st).2 ↔
        ¬ ∃ t, b = some t ∧ t ≤ STOP_GRACE_SECONDS)) ∧
    engine_stop b st = stop_bridge b st := by
  refine ⟨?_, ?_, ?_, ?_, rfl⟩
  · intro h
    simp [stop_bridge, h]
  · rcases hp : st.bridgeProcess with _ | pid <;> simp [stop_bridge, hp]
  · intro b2
    rcases hp : st.bridgeProcess with _ | pid <;> simp [stop_bridge, hp]
  · intro pid hpid
    rcases b with _ | t
    · simp [stop_bridge, hpid]
    · by_cases ht : t ≤ STOP_GRACE_SECONDS <;> simp [stop_bridge, hpid, ht]

/-- C8 witness: stopping a never-started engine is a no-op, and a process
that has not exited 10 s after terminate (past the 5 s grace) is killed. -/
theorem stop_idempotent_witness :
    stop_bridge none stOff = (stOff, []) ∧
    StopAction.kill 7 ∈ (stop_bridge (some 10) stProc7).2 := by
  constructor
  · exact (stop_idempotent none stOff).1 rfl
  · refine (((stop_idempotent (some 10) stProc7).2.2.2.1 7 rfl).2).mpr ?_
    rintro ⟨t, ht, hle⟩
    rw [Option.some.injEq] at ht
    subst ht
    norm_num [STOP_GRACE_SECONDS] at hle

/-- C9: for any timeout under one polling interval the connect loop runs
zero iterations — no status request is issued, no exception is captured —
and `connect` raises the connection error with no cause attached. -/
theorem tiny_timeout_no_requests (w : ConnectWorld) (st : EngineState) (T : ℚ)
    (hT : T < 1 / 10) (hsb : (start_bridge_if_needed w st).1 = none) :
    connectStatusResult w.statusOracle T = .connError none 0 ∧
    (engineConnect w T st).1 = some ⟨couldNotConnectMsg st.serviceUrl, none⟩ := by
  have hit : healthCheckIterations T = 0 := healthCheckIterations_eq_zero T hT
  have hcs : connectStatusResult w.statusOracle T = .connError none 0 := by
    unfold connectStatusResult
    rw [hit]
    rfl
  refine ⟨hcs, ?_⟩
  rcases hsb2 : start_bridge_if_needed w st with ⟨e1, st1⟩
  rw [hsb2] at hsb
  simp only at hsb
  subst hsb
  simp only [engineConnect, hsb2, hcs]

/-- C9 witness: a 50 ms timeout issues zero status requests and raises the
connection error with `last_exc` unset. -/
theorem tiny_timeout_no_requests_witness :
    connectStatusResult wLive.statusOracle (1 / 20) = .connError none 0 ∧
    (engineConnect wLive (1 / 20) stOff).1 =
      some ⟨couldNotConnectMsg stOff.serviceUrl, none⟩ :=
  tiny_timeout_no_requests wLive stOff (1 / 20) (by norm_num) rfl

/-- C10: an invalid `PRISMA_BRIDGE_DIR` override neither fails the lookup
nor is returned: the locator behaves as if the override were unset, so the
result can only be one of the remaining candidates, never the override. -/
theorem invalid_override_falls_through (fs : FS) (env : LocatorEnv) (p : FsPath)
    (hset : env.envBridgeDir = some p) (hbad : hasBridgeManifest fs p = false) :
    find_bridge_directory fs env =
      find_bridge_directory fs { env with envBridgeDir := none } ∧
    find_bridge_directory fs env ≠ some p := by
  constructor
  · simp only [find_bridge_directory, hset, hbad]
    rfl
  · intro hcontra
    have hvalid := find_bridge_directory_valid fs env p hcontra
    rw [hbad] at hvalid
    cases hvalid

/-- C10 witness: with `PRISMA_BRIDGE_DIR=baddir` invalid and a valid bridge
under the working directory, the locator silently resolves elsewhere. -/
theorem invalid_override_falls_through_witness :
    find_bridge_directory fsCwdOnly envOverride =
      find_bridge_directory fsCwdOnly { envOverride with envBridgeDir := none } ∧
    find_bridge_directory fsCwdOnly envOverride ≠ some ["baddir"] :=
  invalid_override_falls_through fsCwdOnly envOverride ["baddir"] rfl (by decide)

/-- C1 counterexample: the engine facade keeps no connected flag, so in a
world with a healthy reachable bridge a first `connect` succeeds and a
second `connect` on the same instance, with no intervening disconnect,
succeeds again (re-running the handshake) instead of failing with an
already-connected error. -/
theorem second_connect_counterexample :
    (engineConnect wLive 1 stAuto).1 = none ∧
    (engineConnect wLive 1 (engineConnect wLive 1 stAuto).2).1 = none := by
  have hsb : start_bridge_if_needed wLive stAuto = (none, stAuto) := rfl
  have hcs : connectStatusResult wLive.statusOracle 1 = .connected 1 := by
    unfold connectStatusResult
    rw [healthCheckIterations_one]
    rfl
  have hfull : engineConnect wLive 1 stAuto = (none, stAuto) := by
    simp only [engineConnect, hsb, hcs]
  constructor <;> simp [hfull]

/-- C1 (amended): a second `connect` without an intervening disconnect is
never rejected — whenever a `connect` succeeds, an immediately repeated
`connect` on the resulting instance state succeeds as well, because the
facade re-runs `_start_bridge_if_needed` and the status polling loop
against the same world rather than checking a connected flag. -/
theorem second_connect_no_already_connected (w : ConnectWorld) (T : ℚ)
    (st : EngineState) (h : (engineConnect w T st).1 = none) :
    (engineConnect w T ((engineConnect w T st).2)).1 = none := by
  rcases hsb : start_bridge_if_needed w st with ⟨e1, st1⟩
  have hauto : st1.autoStart = st.autoStart := by
    have hcfg := (start_bridge_preserves_config w st).1
    rw [hsb] at hcfg
    exact hcfg
  have hsame : (start_bridge_if_needed w st1).1 = e1 := by
    have hind := start_bridge_error_only_autoStart w st1 st hauto
    rw [hsb] at hind
    exact hind
  rcases hsb1 : start_bridge_if_needed w st1 with ⟨e2, st2⟩
  rw [hsb1] at hsame
  simp only at hsame
  subst hsame
  cases e2 with
  | some e =>
    simp only [engineConnect, hsb] at h
    exact Option.noConfusion h
  | none =>
    rcases hcs : connectStatusResult w.statusOracle T with n | ⟨lastE, n⟩
    · simp only [engineConnect, hsb, hsb1, hcs]
    · simp only [engineConnect, hsb, hcs] at h
      exact Option.noConfusion h

/-- C1 witness: in the healthy-bridge world, a repeat `connect` after a
successful one returns success (no already-connected failure). -/
theorem second_connect_no_already_connected_witness :
    (engineConnect wLive 1 (engineConnect wLive 1 stAuto).2).1 = none := by
  refine second_connect_no_already_connected wLive 1 stAuto ?_
  have hcs : connectStatusResult wLive.statusOracle 1 = .connected 1 := by
    unfold connectStatusResult
    rw [healthCheckIterations_one]
    rfl
  simp only [engineConnect, hcs]
  rfl

/-- C2 counterexample: with a 1-second timeout the loop runs the fixed
count `int(1 / 0.1) = 10` of iterations; if every status request takes one
second the failing run consumes 11 seconds of wall time, far beyond the
claimed ceiling of the timeout plus one 0.1 s interval — the loop never
recomputes remaining time. -/
theorem timeout_ceiling_counterexample :
    healthCheckIterations 1 = 10 ∧
    connectStatusResult oracleRefuse 1 = .connError (some "ECONNREFUSED") 10 ∧
    connectElapsed oracleRefuse durOneSec (healthCheckIterations 1) 0 = 11 ∧
    ¬ ((11 : ℚ) ≤ 1 + 1 / 10) := by
  refine ⟨healthCheckIterations_one, ?_, ?_, by norm_num⟩
  · unfold connectStatusResult
    rw [healthCheckIterations_one]
    rfl
  · rw [healthCheckIterations_one]
    norm_num [connectElapsed, oracleRefuse, durOneSec]

/-- C2 (amended): the connect loop runs a fixed iteration count
`int(timeout / 0.1)` chosen before it starts, sleeping 0.1 s per retried
iteration; the accumulated sleep time alone never exceeds the timeout, so
with instantaneous requests the loop does finish within the timeout — but
request durations are not counted against the deadline. -/
theorem fixed_iteration_sleep_within_timeout (oracle : Nat → StatusResp)
    (T : ℚ) (hT : 0 ≤ T) :
    connectElapsed oracle (fun _ => 0) (healthCheckIterations T) 0 ≤ T :=
  le_trans (connectElapsed_zero_dur_le oracle (healthCheckIterations T) 0)
    (healthCheckIterations_le T hT)

/-- C2 witness: a never-ok endpoint with instantaneous requests keeps a
1-second connect within its timeout. -/
theorem fixed_iteration_sleep_within_timeout_witness :
    connectElapsed oracleRefuse (fun _ => 0) (healthCheckIterations 1) 0 ≤ 1 :=
  fixed_iteration_sleep_within_timeout oracleRefuse 1 (by norm_num)

set_option maxRecDepth 40000 in
/-- C3 counterexample: in an environment whose four searched candidates are
`opt/acme/src/prisma/bridge`, `opt/acme/prisma-bridge`,
`workdir/prisma-bridge` and `homedir/.prisma/bridge`, none holding a
manifest, `connect` fails with the locator error — but its message mentions
none of the four searched paths, so it does not enumerate them. -/
theorem locator_error_counterexample :
    (engineConnect wNotFound 1 stAuto).1 = some ⟨bridgeNotFoundMsg, none⟩ ∧
    mentions bridgeNotFoundMsg (FsPath.render (bundledDir envFour)) = false ∧
    mentions bridgeNotFoundMsg (FsPath.render (adjacentDir envFour)) = false ∧
    mentions bridgeNotFoundMsg (FsPath.render (cwdBridgeDir envFour)) = false ∧
    mentions bridgeNotFoundMsg (FsPath.render (homeBridgeDir envFour)) = false := by
  refine ⟨rfl, ?_, ?_, ?_, ?_⟩ <;> decide

/-- C3 (amended): whenever auto-start is on, no live bridge is reachable
and the locator finds no candidate, `connect` fails with the locator
error carrying the fixed remediation message (set the override, clone the
repo, copy the bridge into the project, or disable auto-start) — the same
message regardless of which concrete locations were searched. -/
theorem locator_error_fixed_message (w : ConnectWorld) (st : EngineState)
    (T : ℚ) (hA : st.autoStart = true) (hR : w.reachable = false)
    (hL : find_bridge_directory w.fs w.env = none) :
    (engineConnect w T st).1 = some ⟨bridgeNotFoundMsg, none⟩ := by
  have hsb : start_bridge_if_needed w st =
      (some ⟨bridgeNotFoundMsg, none⟩, { st with bridgeDir := none }) := by
    simp only [start_bridge_if_needed, hA, hR, hL]
    rfl
  simp only [engineConnect, hsb]

/-- C3 witness: the concrete four-candidate environment produces exactly
the fixed locator-failure error. -/
theorem locator_error_fixed_message_witness :
    (engineConnect wNotFound (1 / 2) stAuto).1 = some ⟨bridgeNotFoundMsg, none⟩ :=
  locator_error_fixed_message wNotFound stAuto (1 / 2) rfl rfl rfl

end PrismaService
